import Mathlib

/-!
Verification development for the tab-endpoint actor (`BrowserChild.cpp`):
shallow embedding of the input-coalescing engine, the render-epoch
sequencer, the pending-activation gate, the two-phase teardown runnable,
and the layers-id registry, together with theorems settling the spec's
claims about them.

Conventions: machine integers that never overflow in the modelled paths
(pointer ids, epochs, block ids, timestamps) are `Nat`; nullable C++
pointers and null `TimeStamp`s are `Option`; calls into excluded
collaborators ("dispatch event to content") are recorded in trace lists.
-/

namespace Mypal68

/-! ## Association-list helpers

`nsClassHashtable` / `nsDataHashtable` keyed by a numeric id are embedded
as association lists.  `LookupOrAdd`/`Put` keep an existing key's position
and append a missing key at the end, so iteration order in the model is
the order in which keys were first inserted. -/

def lookupAssoc {α : Type} : List (Nat × α) → Nat → Option α
  | [], _ => none
  | (k2, v) :: rest, k => if k2 = k then some v else lookupAssoc rest k

def putAssoc {α : Type} : List (Nat × α) → Nat → α → List (Nat × α)
  | [], k, v => [(k, v)]
  | (k2, v2) :: rest, k, v =>
    if k2 = k then (k2, v) :: rest else (k2, v2) :: putAssoc rest k v

def removeAssoc {α : Type} : List (Nat × α) → Nat → List (Nat × α)
  | [], _ => []
  | (k2, v2) :: rest, k =>
    if k2 = k then removeAssoc rest k else (k2, v2) :: removeAssoc rest k

/-! ## Mouse events and per-pointer coalescing records -/

/-- Widget mouse message kind: `eMouseMove` is the only coalescible
message; every other message (button down/up, enter/exit, ...) is carried
by the `other` constructor. -/
inductive MouseMessage : Type
  | eMouseMove
  | other (code : Nat)
deriving DecidableEq, Repr

/-- The slice of `WidgetMouseEvent` the coalescing engine inspects:
message kind, pointer identity, position, modifier/button-state class and
timestamp. -/
structure WidgetMouseEvent where
  message : MouseMessage
  pointerId : Nat
  refPoint : Int × Int
  modifiers : Nat
  timeStamp : Nat
deriving DecidableEq, Repr

/-- Per-pointer `CoalescedMouseData` record: the latest merged event (if
any) plus the hit-test guid and input-block id that came with it. -/
structure CoalescedMouseData where
  coalescedInputEvent : Option WidgetMouseEvent
  guid : Nat
  inputBlockId : Nat
deriving DecidableEq, Repr

def CoalescedMouseData.emptyData : CoalescedMouseData :=
  { coalescedInputEvent := none, guid := 0, inputBlockId := 0 }

def CoalescedMouseData.IsEmpty (d : CoalescedMouseData) : Bool :=
  d.coalescedInputEvent.isNone

/-- Modelled from the spec: `CoalescedMouseData::CanCoalesce` is not under
`src/`; the spec defines compatibility as "same modifiers/button state
class" for the same pointer and message kind, with an empty record
accepting any event. -/
def CoalescedMouseData.CanCoalesce (d : CoalescedMouseData)
    (ev : WidgetMouseEvent) : Bool :=
  match d.coalescedInputEvent with
  | none => true
  | some old =>
    old.message == ev.message && old.pointerId == ev.pointerId &&
      old.modifiers == ev.modifiers

/-- Modelled from the spec: `CoalescedMouseData::Coalesce` replaces the
stored event, so "the merged record carries the latest event's metadata"
(position, timestamp, guid, input-block id). -/
def CoalescedMouseData.Coalesce (_d : CoalescedMouseData)
    (ev : WidgetMouseEvent) (aGuid aInputBlockId : Nat) : CoalescedMouseData :=
  { coalescedInputEvent := some ev, guid := aGuid, inputBlockId := aInputBlockId }

/-- One event handed to the excluded content-dispatch collaborator
(`HandleRealMouseButtonEvent`), recorded in the dispatch trace. -/
structure DispatchedMouseEvent where
  event : WidgetMouseEvent
  guid : Nat
  inputBlockId : Nat
deriving DecidableEq, Repr

/-- The mouse-coalescing slice of `BrowserChild` state: the
`dom.event.coalesce_mouse_move` pref, the per-pointer hash table
`mCoalescedMouseData`, the FIFO `mToBeDispatchedMouseData`, and the trace
of events dispatched to content. -/
structure MouseCoalesceState where
  coalesceMouseMoveEvents : Bool
  coalescedMouseData : List (Nat × CoalescedMouseData)
  toBeDispatchedMouseData : List CoalescedMouseData
  dispatched : List DispatchedMouseEvent
deriving DecidableEq, Repr

def initMouseState : MouseCoalesceState :=
  { coalesceMouseMoveEvents := true, coalescedMouseData := [],
    toBeDispatchedMouseData := [], dispatched := [] }

/-- `HandleRealMouseButtonEvent`: dispatch one event to content (excluded
collaborator), modelled as appending to the trace. -/
def HandleRealMouseButtonEvent (s : MouseCoalesceState)
    (ev : WidgetMouseEvent) (aGuid aInputBlockId : Nat) : MouseCoalesceState :=
  { s with dispatched := s.dispatched ++ [⟨ev, aGuid, aInputBlockId⟩] }

/-- Events produced by draining a queue of coalesced records in FIFO
order; records whose `TakeCoalescedEvent` is null are skipped. -/
def drainQueue : List CoalescedMouseData → List DispatchedMouseEvent
  | [] => []
  | d :: rest =>
    (match d.coalescedInputEvent with
     | some ev => [⟨ev, d.guid, d.inputBlockId⟩]
     | none => []) ++ drainQueue rest

/-- `ProcessPendingCoalescedMouseDataAndDispatchEvents`: pop every record
from `mToBeDispatchedMouseData` and dispatch it.  Content dispatch is an
excluded collaborator modelled as a pure trace append, under which the
re-polling drain loop of the source never observes a grown queue, so the
drain is a single pass here. -/
def ProcessPendingCoalescedMouseDataAndDispatchEvents
    (s : MouseCoalesceState) : MouseCoalesceState :=
  if s.coalesceMouseMoveEvents then
    { s with toBeDispatchedMouseData := [],
             dispatched := s.dispatched ++ drainQueue s.toBeDispatchedMouseData }
  else s

/-- `FlushAllCoalescedMouseData`: move every non-empty per-pointer record
into `mToBeDispatchedMouseData` (in table iteration order, i.e. first
insertion order in this model) and clear the table. -/
def FlushAllCoalescedMouseData (s : MouseCoalesceState) : MouseCoalesceState :=
  { s with
    toBeDispatchedMouseData := s.toBeDispatchedMouseData ++
      s.coalescedMouseData.filterMap
        (fun p => if p.2.IsEmpty then none else some p.2),
    coalescedMouseData := [] }

/-- `RecvRealMouseButtonEvent`: for a non-move event with coalescing
enabled, flush all per-pointer records, append the new event, and drain;
otherwise dispatch directly. -/
def RecvRealMouseButtonEvent (s : MouseCoalesceState)
    (ev : WidgetMouseEvent) (aGuid aInputBlockId : Nat) : MouseCoalesceState :=
  if s.coalesceMouseMoveEvents = true ∧ ev.message ≠ MouseMessage.eMouseMove then
    let s1 := FlushAllCoalescedMouseData s
    let s2 := { s1 with toBeDispatchedMouseData := s1.toBeDispatchedMouseData ++
      [CoalescedMouseData.emptyData.Coalesce ev aGuid aInputBlockId] }
    ProcessPendingCoalescedMouseDataAndDispatchEvents s2
  else
    HandleRealMouseButtonEvent s ev aGuid aInputBlockId

/-- `RecvRealMouseMoveEvent`: with coalescing enabled, look up (or add)
the per-pointer record; if the event can coalesce, merge it in place;
otherwise push the old record to the dispatch queue, start a fresh record
from the new event, and drain the queue. -/
def RecvRealMouseMoveEvent (s : MouseCoalesceState)
    (ev : WidgetMouseEvent) (aGuid aInputBlockId : Nat) : MouseCoalesceState :=
  if s.coalesceMouseMoveEvents then
    let data := (lookupAssoc s.coalescedMouseData ev.pointerId).getD
      CoalescedMouseData.emptyData
    if data.CanCoalesce ev then
      { s with coalescedMouseData :=
          (putAssoc s.coalescedMouseData ev.pointerId
            (data.Coalesce ev aGuid aInputBlockId)) }
    else
      let s1 := { s with
        toBeDispatchedMouseData := s.toBeDispatchedMouseData ++ [data],
        coalescedMouseData :=
          (putAssoc s.coalescedMouseData ev.pointerId
            (CoalescedMouseData.emptyData.Coalesce ev aGuid aInputBlockId)) }
      ProcessPendingCoalescedMouseDataAndDispatchEvents s1
  else
    RecvRealMouseButtonEvent s ev aGuid aInputBlockId

/-- Modelled from the spec: `CoalescedMouseMoveFlusher` is not under
`src/`; per the spec and the comments in
`ProcessPendingCoalescedMouseDataAndDispatchEvents`, on a refresh tick it
moves the buffered per-pointer records to the dispatch queue and drains
them. -/
def CoalescedMouseMoveFlusherWillRefresh (s : MouseCoalesceState) :
    MouseCoalesceState :=
  ProcessPendingCoalescedMouseDataAndDispatchEvents
    (FlushAllCoalescedMouseData s)

/-- One inbound mouse-move message: event, hit-test guid, input-block id. -/
abbrev MouseInput := WidgetMouseEvent × Nat × Nat

def runMoves (inputs : List MouseInput) (s : MouseCoalesceState) :
    MouseCoalesceState :=
  inputs.foldl (fun t i => RecvRealMouseMoveEvent t i.1 i.2.1 i.2.2) s

/-- Last element of `d :: l` (the latest input of a nonempty sequence). -/
def lastInput (d : MouseInput) (l : List MouseInput) : MouseInput :=
  l.foldl (fun _ i => i) d

/-! ## Wheel events and the single wheel accumulator -/

/-- Wheel message kind: only plain `eWheel` deltas are coalescible; the
operation begin/end markers are never merged. -/
inductive WheelMessage : Type
  | eWheel
  | eWheelOperationStart
  | eWheelOperationEnd
deriving DecidableEq, Repr

/-- The slice of `WidgetWheelEvent` the wheel coalescer inspects: message
kind, timestamp, scroll deltas and a compatibility key standing for the
attribute class (`deltaMode`, modifiers, ...) that must match for two
deltas to merge. -/
structure WidgetWheelEvent where
  message : WheelMessage
  timeStamp : Nat
  deltaX : Int
  deltaY : Int
  compatKey : Nat
deriving DecidableEq, Repr

/-- The singleton `CoalescedWheelData` accumulator. -/
structure CoalescedWheelData where
  coalescedInputEvent : Option WidgetWheelEvent
  guid : Nat
  inputBlockId : Nat
deriving DecidableEq, Repr

def CoalescedWheelData.emptyData : CoalescedWheelData :=
  { coalescedInputEvent := none, guid := 0, inputBlockId := 0 }

def CoalescedWheelData.IsEmpty (d : CoalescedWheelData) : Bool :=
  d.coalescedInputEvent.isNone

/-- Modelled from the spec: `CoalescedWheelData::CanCoalesce` is not under
`src/`; the spec requires the new delta to be "compatible with any
already-accumulated pending delta", embedded as equality of the
compatibility key and of the guid / input-block id of the accumulator. -/
def CoalescedWheelData.CanCoalesce (d : CoalescedWheelData)
    (ev : WidgetWheelEvent) (aGuid aInputBlockId : Nat) : Bool :=
  match d.coalescedInputEvent with
  | none => true
  | some old =>
    old.compatKey == ev.compatKey && d.guid == aGuid &&
      d.inputBlockId == aInputBlockId

/-- Modelled from the spec: `CoalescedWheelData::Coalesce` accumulates the
deltas and keeps the latest event's remaining metadata. -/
def CoalescedWheelData.Coalesce (d : CoalescedWheelData)
    (ev : WidgetWheelEvent) (aGuid aInputBlockId : Nat) : CoalescedWheelData :=
  match d.coalescedInputEvent with
  | none => { coalescedInputEvent := some ev, guid := aGuid,
              inputBlockId := aInputBlockId }
  | some old =>
    { coalescedInputEvent := some
        { ev with deltaX := old.deltaX + ev.deltaX,
                  deltaY := old.deltaY + ev.deltaY },
      guid := aGuid, inputBlockId := aInputBlockId }

/-- The wheel-coalescing slice of `BrowserChild` state.
`mLastWheelProcessedTimeFromParent` is a nullable `TimeStamp`
(`none` = the null sentinel); timestamps and durations are `Nat` ticks. -/
structure WheelState where
  lastWheelProcessedTimeFromParent : Option Nat
  lastWheelProcessingDuration : Nat
  coalescedWheelData : CoalescedWheelData
  dispatchedWheel : List (WidgetWheelEvent × Nat × Nat)
deriving DecidableEq, Repr

/-- `DispatchWheelEvent`: hand one wheel event to content (excluded
collaborator), recorded in the trace. -/
def DispatchWheelEvent (s : WheelState) (ev : WidgetWheelEvent)
    (aGuid aInputBlockId : Nat) : WheelState :=
  { s with dispatchedWheel := s.dispatchedWheel ++ [(ev, aGuid, aInputBlockId)] }

/-- `MaybeDispatchCoalescedWheelEvent`: if the accumulator is non-empty,
take its event and dispatch it. -/
def MaybeDispatchCoalescedWheelEvent (s : WheelState) : WheelState :=
  match s.coalescedWheelData.coalescedInputEvent with
  | none => s
  | some ev =>
    { s with
      dispatchedWheel := s.dispatchedWheel ++
        [(ev, s.coalescedWheelData.guid, s.coalescedWheelData.inputBlockId)],
      coalescedWheelData :=
        { s.coalescedWheelData with coalescedInputEvent := none } }

/-- `MaybeCoalesceWheelEvent`.  `nextQueuedIsWheel` is the channel oracle:
whether the next message already queued on the IPC channel (peeked, not
consumed) is a wheel message.  Returns (merged, `aIsNextWheelEvent`, new
state).  The peek happens only for `eWheel` messages, and merging requires
a non-null last-processed time, a queued next wheel event, a timestamp
inside the estimated in-flight window, and a compatible (or empty)
accumulator. -/
def MaybeCoalesceWheelEvent (s : WheelState) (ev : WidgetWheelEvent)
    (aGuid aInputBlockId : Nat) (nextQueuedIsWheel : Bool) :
    Bool × Bool × WheelState :=
  if ev.message = WheelMessage.eWheel then
    match s.lastWheelProcessedTimeFromParent with
    | some t =>
      if nextQueuedIsWheel = true ∧
          ev.timeStamp < t + s.lastWheelProcessingDuration ∧
          (s.coalescedWheelData.IsEmpty = true ∨
            s.coalescedWheelData.CanCoalesce ev aGuid aInputBlockId = true) then
        (true, nextQueuedIsWheel,
          { s with coalescedWheelData :=
              (s.coalescedWheelData.Coalesce ev aGuid aInputBlockId) })
      else (false, nextQueuedIsWheel, s)
    | none => (false, nextQueuedIsWheel, s)
  else (false, false, s)

/-- `RecvMouseWheelEvent`.  `dispatchDuration` is the wall-clock oracle:
the measured time the two dispatch calls take (`TimeStamp::Now()`
difference in the source).  If the event merged, nothing else happens.
Otherwise the pending accumulated event (if any) is dispatched, then the
new event; when a next wheel event is queued, the processing-duration
estimate is updated and the last-processed marker advanced past it, and
when none is queued the last-processed marker is reset to null. -/
def RecvMouseWheelEvent (s : WheelState) (ev : WidgetWheelEvent)
    (aGuid aInputBlockId : Nat) (nextQueuedIsWheel : Bool)
    (dispatchDuration : Nat) : WheelState :=
  let r := MaybeCoalesceWheelEvent s ev aGuid aInputBlockId nextQueuedIsWheel
  if r.1 then r.2.2
  else
    let isNext := r.2.1
    let s0 := r.2.2
    if isNext then
      let s1 := { s0 with lastWheelProcessedTimeFromParent := some ev.timeStamp }
      let s2 := MaybeDispatchCoalescedWheelEvent s1
      let s3 := DispatchWheelEvent s2 ev aGuid aInputBlockId
      { s3 with lastWheelProcessingDuration := dispatchDuration,
                lastWheelProcessedTimeFromParent :=
                  some (ev.timeStamp + dispatchDuration) }
    else
      let s1 := { s0 with lastWheelProcessedTimeFromParent := none }
      let s2 := MaybeDispatchCoalescedWheelEvent s1
      DispatchWheelEvent s2 ev aGuid aInputBlockId

/-! ## Pending-activation gate and render-epoch sequencer -/

/-- The gate/sequencer slice of `BrowserChild` state: the pending-blocker
counter, the captured latest set-active and render-layers requests, the
current layers-observer epoch, and traces of the applied effects
(`docShell->SetIsActive` calls and applied render-layers requests as
(enabled, forceRepaint, epoch) triples). -/
structure GateState where
  pendingDocShellBlockers : Nat
  pendingDocShellReceivedMessage : Bool
  pendingDocShellIsActive : Bool
  pendingRenderLayersReceivedMessage : Bool
  pendingRenderLayers : Bool
  pendingLayersObserverEpoch : Nat
  layersObserverEpoch : Nat
  appliedIsActive : List Bool
  appliedRenderLayers : List (Bool × Bool × Nat)
deriving DecidableEq, Repr

def initGateState : GateState :=
  { pendingDocShellBlockers := 0, pendingDocShellReceivedMessage := false,
    pendingDocShellIsActive := false,
    pendingRenderLayersReceivedMessage := false, pendingRenderLayers := false,
    pendingLayersObserverEpoch := 0, layersObserverEpoch := 0,
    appliedIsActive := [], appliedRenderLayers := [] }

/-- `InternalSetDocShellIsActive`: apply the activation to the docshell
(excluded collaborator), recorded in the trace. -/
def InternalSetDocShellIsActive (s : GateState) (aIsActive : Bool) : GateState :=
  { s with appliedIsActive := s.appliedIsActive ++ [aIsActive] }

/-- `RecvSetDocShellIsActive`: while blocked, capture the value
(last-writer-wins); otherwise apply it. -/
def RecvSetDocShellIsActive (s : GateState) (aIsActive : Bool) : GateState :=
  if 0 < s.pendingDocShellBlockers then
    { s with pendingDocShellReceivedMessage := true,
             pendingDocShellIsActive := aIsActive }
  else
    InternalSetDocShellIsActive s aIsActive

/-- `RecvRenderLayers`: while blocked, capture enabled and epoch
(the forceRepaint flag is not stored); otherwise discard the request when
`mLayersObserverEpoch >= aEpoch`, and else advance the epoch and apply the
request (the rendering work itself is the excluded collaborator, recorded
in the trace). -/
def RecvRenderLayers (s : GateState) (aEnabled aForceRepaint : Bool)
    (aEpoch : Nat) : GateState :=
  if 0 < s.pendingDocShellBlockers then
    { s with pendingRenderLayersReceivedMessage := true,
             pendingRenderLayers := aEnabled,
             pendingLayersObserverEpoch := aEpoch }
  else if aEpoch ≤ s.layersObserverEpoch then s
  else
    { s with layersObserverEpoch := aEpoch,
             appliedRenderLayers :=
               s.appliedRenderLayers ++ [(aEnabled, aForceRepaint, aEpoch)] }

def AddPendingDocShellBlocker (s : GateState) : GateState :=
  { s with pendingDocShellBlockers := s.pendingDocShellBlockers + 1 }

/-- `RemovePendingDocShellBlocker`: decrement the counter; if it reached
zero, replay the captured set-active request (if any) and then re-enter
`RecvRenderLayers` with the captured enabled/epoch and
`aForceRepaint = false`. -/
def RemovePendingDocShellBlocker (s : GateState) : GateState :=
  let s1 := { s with pendingDocShellBlockers := s.pendingDocShellBlockers - 1 }
  let s2 :=
    if s1.pendingDocShellBlockers = 0 ∧
        s1.pendingDocShellReceivedMessage = true then
      InternalSetDocShellIsActive
        { s1 with pendingDocShellReceivedMessage := false }
        s1.pendingDocShellIsActive
    else s1
  if s2.pendingDocShellBlockers = 0 ∧
      s2.pendingRenderLayersReceivedMessage = true then
    RecvRenderLayers { s2 with pendingRenderLayersReceivedMessage := false }
      s2.pendingRenderLayers false s2.pendingLayersObserverEpoch
  else s2

/-- One gated inbound request. -/
inductive GateRequest : Type
  | setActive (aIsActive : Bool)
  | renderLayers (aEnabled aForceRepaint : Bool) (aEpoch : Nat)
deriving DecidableEq, Repr

def applyGateRequest (s : GateState) : GateRequest → GateState
  | .setActive a => RecvSetDocShellIsActive s a
  | .renderLayers e f ep => RecvRenderLayers s e f ep

def runGateRequests (s : GateState) (l : List GateRequest) : GateState :=
  l.foldl applyGateRequest s

/-- Value of the last set-active request in a request list, if any. -/
def lastSetActive : List GateRequest → Option Bool
  | [] => none
  | r :: rest =>
    match lastSetActive rest with
    | some a => some a
    | none =>
      match r with
      | .setActive a => some a
      | _ => none

/-- Enabled flag and epoch of the last render-layers request in a request
list, if any (the forceRepaint flag is not captured by the gate). -/
def lastRenderLayers : List GateRequest → Option (Bool × Nat)
  | [] => none
  | r :: rest =>
    match lastRenderLayers rest with
    | some p => some p
    | none =>
      match r with
      | .renderLayers e _ ep => some (e, ep)
      | _ => none

/-! ## Two-phase teardown (`DelayedDeleteRunnable`) -/

inductive RunnablePriority : Type
  | normal
  | input
deriving DecidableEq, Repr

/-- A task on the actor thread's event queue after `RecvDestroy`: the
delayed-delete runnable itself, or some other inbound message addressed to
the (already torn down) actor. -/
inductive TeardownTask : Type
  | delayedDeleteRunnable
  | inboundMessage (code : Nat)
deriving DecidableEq, Repr

/-- The teardown-relevant slice of state: the runnable's
`mReadyToDelete` flag, the channel state, the middleman-recording flag,
the number of channel-close (`Send__delete__`) messages sent, and a count
of other inbound messages handled. -/
structure TeardownState where
  readyToDelete : Bool
  ipcOpen : Bool
  isMiddlemanWithRecordingChild : Bool
  closesSent : Nat
  inboundHandled : Nat
deriving DecidableEq, Repr

/-- `DelayedDeleteRunnable::GetPriority`: normal priority before the first
run, input priority for the re-submitted second run. -/
def DelayedDeleteRunnable.GetPriority (s : TeardownState) : RunnablePriority :=
  if s.readyToDelete then RunnablePriority.input else RunnablePriority.normal

/-- Run one task: the runnable's first run only sets `mReadyToDelete` and
re-dispatches itself (returned as newly scheduled tasks); its second run
sends the channel close exactly when the channel is still open and the
process is not a middleman with a recording child.  Inbound messages to
the torn-down actor do not touch teardown state. -/
def runTeardownTask (s : TeardownState) (t : TeardownTask) :
    TeardownState × List TeardownTask :=
  match t with
  | .delayedDeleteRunnable =>
    if s.readyToDelete = false then
      ({ s with readyToDelete := true }, [TeardownTask.delayedDeleteRunnable])
    else if s.ipcOpen = true ∧ s.isMiddlemanWithRecordingChild = false then
      ({ s with closesSent := s.closesSent + 1 }, [])
    else (s, [])
  | .inboundMessage _ =>
    ({ s with inboundHandled := s.inboundHandled + 1 }, [])

/-- Drain the event queue to quiescence, appending tasks scheduled by a
running task at the end of the queue. -/
def runTeardownQueue (s : TeardownState) (q : List TeardownTask) :
    TeardownState :=
  match q with
  | [] => s
  | t :: rest =>
    let r := runTeardownTask s t
    runTeardownQueue r.1 (rest ++ r.2)
termination_by q.length + (if s.readyToDelete then 0 else 1)
decreasing_by
  rcases t with _ | n <;>
    simp only [runTeardownTask] <;>
    split_ifs <;>
    simp_all [List.length_append]

/-! ## `RecvDestroy` -/

/-- The destroy-relevant slice of state: the `mDestroyed` flag, how many
times `DestroyWindow` ran, and how many delayed-delete runnables were
scheduled. -/
structure DestroyState where
  mDestroyed : Bool
  destroyWindowRuns : Nat
  delayedDeleteScheduled : Nat
deriving DecidableEq, Repr

/-- `RecvDestroy` under debug-build semantics: `MOZ_ASSERT(mDestroyed ==
false)` trips fatally (modelled as `Except.error`) when the actor is
already destroying; otherwise it marks the actor destroyed, tears down the
window and schedules the delayed-delete runnable. -/
def RecvDestroy (s : DestroyState) : Except String DestroyState :=
  if s.mDestroyed then
    Except.error "Assertion failure: mDestroyed == false"
  else
    Except.ok
      { s with mDestroyed := true,
               destroyWindowRuns := s.destroyWindowRuns + 1,
               delayedDeleteScheduled := s.delayedDeleteScheduled + 1 }

/-! ## Layers-id registry (`sBrowserChildren`)

All three accesses in the source take `sBrowserChildrenMutex`, so the
concurrent history is a linearized sequence of atomic operations on the
nullable map `sBrowserChildren` (`none` models the null pointer, to which
the map is reset when its last entry is removed). -/

abbrev BrowserChildMap := Option (List (Nat × Nat))

/-- `BrowserChild::GetFrom(layers::LayersId)`: under the mutex, null table
means not found, else hash lookup. -/
def GetFromLayersId (r : BrowserChildMap) (aLayersId : Nat) : Option Nat :=
  match r with
  | none => none
  | some m => lookupAssoc m aLayersId

/-- Registration in `InitRenderingState`: under the mutex, allocate the
table if null, then `Put` (the source asserts the key is absent). -/
def registerLayersId (r : BrowserChildMap) (aLayersId actor : Nat) :
    BrowserChildMap :=
  match r with
  | none => some [(aLayersId, actor)]
  | some m => some (putAssoc m aLayersId actor)

/-- Removal in `DestroyWindow`: under the mutex, remove the entry and
delete the table when it becomes empty. -/
def unregisterLayersId (r : BrowserChildMap) (aLayersId : Nat) :
    BrowserChildMap :=
  match r with
  | none => none
  | some m =>
    let m2 := removeAssoc m aLayersId
    if m2 = [] then none else some m2

/-- One linearized registry mutation. -/
inductive RegistryOp : Type
  | register (aLayersId actor : Nat)
  | unregister (aLayersId : Nat)
deriving DecidableEq, Repr

def applyRegistryOp (r : BrowserChildMap) : RegistryOp → BrowserChildMap
  | .register i a => registerLayersId r i a
  | .unregister i => unregisterLayersId r i

def applyRegistryOps (r : BrowserChildMap) (ops : List RegistryOp) :
    BrowserChildMap :=
  ops.foldl applyRegistryOp r

/-! ## Helper lemmas: pending-activation gate -/

/-- While the blocker counter is positive, a request list only rewrites
the captured last-writer-wins fields; nothing is applied and the counter,
epoch and traces are untouched. -/
lemma runGateRequests_blocked (l : List GateRequest) :
    ∀ s : GateState, 0 < s.pendingDocShellBlockers →
      runGateRequests s l = { s with
        pendingDocShellReceivedMessage :=
          ((lastSetActive l).isSome || s.pendingDocShellReceivedMessage),
        pendingDocShellIsActive :=
          ((lastSetActive l).getD s.pendingDocShellIsActive),
        pendingRenderLayersReceivedMessage :=
          ((lastRenderLayers l).isSome || s.pendingRenderLayersReceivedMessage),
        pendingRenderLayers :=
          (((lastRenderLayers l).map Prod.fst).getD s.pendingRenderLayers),
        pendingLayersObserverEpoch :=
          (((lastRenderLayers l).map Prod.snd).getD
            s.pendingLayersObserverEpoch) } := by
  induction l with
  | nil =>
    intro s h
    simp [runGateRequests, lastSetActive, lastRenderLayers]
  | cons r rest ih =>
    intro s h
    obtain ⟨nb, rm, ia, rrm, rl, ple, loe, aia, arl⟩ := s
    simp only [runGateRequests, List.foldl_cons] at *
    cases r with
    | setActive a =>
      rw [show applyGateRequest ⟨nb, rm, ia, rrm, rl, ple, loe, aia, arl⟩
            (GateRequest.setActive a) = ⟨nb, true, a, rrm, rl, ple, loe, aia, arl⟩
          from by simp [applyGateRequest, RecvSetDocShellIsActive, h]]
      rw [ih _ h]
      simp only [lastSetActive, lastRenderLayers]
      cases lastSetActive rest <;> cases lastRenderLayers rest <;> simp
    | renderLayers e f ep =>
      rw [show applyGateRequest ⟨nb, rm, ia, rrm, rl, ple, loe, aia, arl⟩
            (GateRequest.renderLayers e f ep) =
            ⟨nb, rm, ia, true, e, ep, loe, aia, arl⟩
          from by simp [applyGateRequest, RecvRenderLayers, h]]
      rw [ih _ h]
      simp only [lastSetActive, lastRenderLayers]
      cases lastSetActive rest <;> cases lastRenderLayers rest <;> simp

/-! ## Claim C3: render-epoch sequencing -/

/-- C3 counterexample: the claim quantifies over every `RecvRenderLayers`
call, but on an actor whose pending-blocker counter is positive a request
whose epoch (3) is below the current epoch (5) is not discarded without
state change: it is captured into the pending render-layers fields. -/
theorem claim_C3_counterexample :
    RecvRenderLayers
        { initGateState with pendingDocShellBlockers := 1,
                             layersObserverEpoch := 5 } true true 3 ≠
      { initGateState with pendingDocShellBlockers := 1,
                           layersObserverEpoch := 5 } := by
  decide

/-- C3 (amended): on an actor whose pending-blocker counter is zero, a
`RecvRenderLayers` request with epoch at most the current epoch is
discarded without changing any state, otherwise the current epoch is set
to the carried epoch and the request is applied; consequently epochs
[5, 3, 7, 7, 6] from a fresh actor at epoch 0 apply exactly 5 and 7. -/
theorem claim_C3_epoch_monotonicity (s : GateState) (en f : Bool) (ep : Nat)
    (hb : s.pendingDocShellBlockers = 0) :
    (ep ≤ s.layersObserverEpoch → RecvRenderLayers s en f ep = s) ∧
    (s.layersObserverEpoch < ep →
      (RecvRenderLayers s en f ep).layersObserverEpoch = ep ∧
      (RecvRenderLayers s en f ep).appliedRenderLayers =
        s.appliedRenderLayers ++ [(en, f, ep)]) ∧
    (runGateRequests initGateState
        [GateRequest.renderLayers true false 5,
         GateRequest.renderLayers true false 3,
         GateRequest.renderLayers true false 7,
         GateRequest.renderLayers true false 7,
         GateRequest.renderLayers true false 6]).appliedRenderLayers.map
      (fun p => p.2.2) = [5, 7] := by
  refine ⟨?_, ?_, by decide⟩
  · intro hle
    simp [RecvRenderLayers, hb, hle]
  · intro hlt
    have hnle : ¬ ep ≤ s.layersObserverEpoch := by omega
    simp [RecvRenderLayers, hb, hnle]

/-- C3 witness. -/
theorem claim_C3_witness :
    (0 ≤ initGateState.layersObserverEpoch →
      RecvRenderLayers initGateState true false 0 = initGateState) ∧
    (initGateState.layersObserverEpoch < 0 →
      (RecvRenderLayers initGateState true false 0).layersObserverEpoch = 0 ∧
      (RecvRenderLayers initGateState true false 0).appliedRenderLayers =
        initGateState.appliedRenderLayers ++ [(true, false, 0)]) ∧
    (runGateRequests initGateState
        [GateRequest.renderLayers true false 5,
         GateRequest.renderLayers true false 3,
         GateRequest.renderLayers true false 7,
         GateRequest.renderLayers true false 7,
         GateRequest.renderLayers true false 6]).appliedRenderLayers.map
      (fun p => p.2.2) = [5, 7] :=
  claim_C3_epoch_monotonicity initGateState true false 0 (by decide)

/-! ## Claim C4: gate capture and last-writer-wins replay -/

/-- C4: while the pending-blocker counter is positive, set-active and
render-enable requests are captured with later requests of the same kind
overwriting earlier ones; when `RemovePendingDocShellBlocker` brings the
counter to zero, exactly the latest captured request of each kind is
replayed once (the render replay re-enters `RecvRenderLayers`, so it
applies exactly when its epoch beats the current epoch, here 0).  In
particular `addBlocker; setActive(true); setActive(false);
setActive(true); removeBlocker` applies exactly one activation, `true`. -/
theorem claim_C4_gate_replay (l : List GateRequest) :
    ((RemovePendingDocShellBlocker
        (runGateRequests (AddPendingDocShellBlocker initGateState) l)).appliedIsActive =
      (match lastSetActive l with
       | some a => [a]
       | none => [])) ∧
    ((RemovePendingDocShellBlocker
        (runGateRequests (AddPendingDocShellBlocker initGateState) l)).appliedRenderLayers =
      (match lastRenderLayers l with
       | some (e, ep) => if 0 < ep then [(e, false, ep)] else []
       | none => [])) ∧
    ((RemovePendingDocShellBlocker
        (runGateRequests (AddPendingDocShellBlocker initGateState) l)).pendingDocShellBlockers = 0) ∧
    ((RemovePendingDocShellBlocker
        (runGateRequests (AddPendingDocShellBlocker initGateState)
          [GateRequest.setActive true, GateRequest.setActive false,
           GateRequest.setActive true])).appliedIsActive = [true]) := by
  have hrun := runGateRequests_blocked l (AddPendingDocShellBlocker initGateState)
    (by decide)
  refine ⟨?_, ?_, ?_, by decide⟩ <;>
    rw [hrun] <;>
    rcases hA : lastSetActive l with _ | a <;>
      rcases hB : lastRenderLayers l with _ | ⟨e, ep⟩ <;>
      simp [AddPendingDocShellBlocker, RemovePendingDocShellBlocker,
        InternalSetDocShellIsActive, RecvRenderLayers, initGateState] <;>
      rcases Nat.eq_zero_or_pos ep with hep | hep <;>
      simp [hep, Nat.pos_iff_ne_zero.mp, Nat.not_lt, Nat.le_zero]

/-! ## Claim C10: the captured render replay drops forceRepaint -/

/-- C10: a render-layers request captured while blocked stores only the
enabled flag and the epoch; the replay on unblocking always passes
`aForceRepaint = false`, whatever the original flag was, so the applied
request carries `false` and the outcome is independent of the original
forceRepaint value. -/
theorem claim_C10_force_repaint_dropped (en f f2 : Bool) (ep : Nat)
    (h : 0 < ep) :
    (RemovePendingDocShellBlocker
        (RecvRenderLayers (AddPendingDocShellBlocker initGateState) en f ep)).appliedRenderLayers =
      [(en, false, ep)] ∧
    RemovePendingDocShellBlocker
        (RecvRenderLayers (AddPendingDocShellBlocker initGateState) en f ep) =
      RemovePendingDocShellBlocker
        (RecvRenderLayers (AddPendingDocShellBlocker initGateState) en f2 ep) := by
  have hnle : ¬ ep ≤ 0 := by omega
  constructor <;>
    simp [AddPendingDocShellBlocker, RecvRenderLayers,
      RemovePendingDocShellBlocker, InternalSetDocShellIsActive,
      initGateState, hnle]

/-- C10 witness. -/
theorem claim_C10_witness :
    (RemovePendingDocShellBlocker
        (RecvRenderLayers (AddPendingDocShellBlocker initGateState) true true 1)).appliedRenderLayers =
      [(true, false, 1)] ∧
    RemovePendingDocShellBlocker
        (RecvRenderLayers (AddPendingDocShellBlocker initGateState) true true 1) =
      RemovePendingDocShellBlocker
        (RecvRenderLayers (AddPendingDocShellBlocker initGateState) true false 1) :=
  claim_C10_force_repaint_dropped true true false 1 (by decide)

/-! ## Helper lemmas: wheel coalescing -/

/-- With no next wheel event queued, `MaybeCoalesceWheelEvent` never
merges and reports `aIsNextWheelEvent = false`. -/
lemma maybeCoalesceWheel_not_next (s : WheelState) (ev : WidgetWheelEvent)
    (g b : Nat) : MaybeCoalesceWheelEvent s ev g b false = (false, false, s) := by
  unfold MaybeCoalesceWheelEvent
  rcases hm : ev.message <;> simp [hm] <;>
    rcases hl : s.lastWheelProcessedTimeFromParent <;> simp [hl]

/-- A null last-processed marker blocks merging. -/
lemma maybeCoalesceWheel_null_marker (s : WheelState) (ev : WidgetWheelEvent)
    (g b : Nat) (nxt : Bool)
    (h : s.lastWheelProcessedTimeFromParent = none) :
    (MaybeCoalesceWheelEvent s ev g b nxt).1 = false := by
  unfold MaybeCoalesceWheelEvent
  rcases hm : ev.message <;> simp [hm, h]

/-- `MaybeDispatchCoalescedWheelEvent` leaves the last-processed marker
and the duration estimate untouched. -/
lemma maybeDispatchCoalescedWheel_marker (s : WheelState) :
    (MaybeDispatchCoalescedWheelEvent s).lastWheelProcessedTimeFromParent =
        s.lastWheelProcessedTimeFromParent ∧
      (MaybeDispatchCoalescedWheelEvent s).lastWheelProcessingDuration =
        s.lastWheelProcessingDuration := by
  unfold MaybeDispatchCoalescedWheelEvent
  rcases h : s.coalescedWheelData.coalescedInputEvent <;> simp [h]

/-- The wheel events a non-merging `RecvMouseWheelEvent` call hands to
content: the pending accumulated event, if any, then the new event. -/
def pendingWheelThenNew (s : WheelState) (ev : WidgetWheelEvent)
    (aGuid aInputBlockId : Nat) : List (WidgetWheelEvent × Nat × Nat) :=
  (match s.coalescedWheelData.coalescedInputEvent with
   | none => []
   | some old =>
     [(old, s.coalescedWheelData.guid, s.coalescedWheelData.inputBlockId)]) ++
    [(ev, aGuid, aInputBlockId)]

/-! ## Claim C6: marker reset on a lone wheel event -/

/-- C6: when a wheel event arrives with no next wheel event queued on the
channel, `RecvMouseWheelEvent` resets the last-processed marker to the
null sentinel; and a null marker makes any subsequent wheel event
ineligible to merge. -/
theorem claim_C6_lone_wheel_marker_reset :
    ∀ (s : WheelState) (ev : WidgetWheelEvent) (g b d : Nat),
      (RecvMouseWheelEvent s ev g b false d).lastWheelProcessedTimeFromParent =
        none ∧
      ∀ (s2 : WheelState) (ev2 : WidgetWheelEvent) (g2 b2 : Nat) (nxt : Bool),
        s2.lastWheelProcessedTimeFromParent = none →
        (MaybeCoalesceWheelEvent s2 ev2 g2 b2 nxt).1 = false := by
  intro s ev g b d
  constructor
  · unfold RecvMouseWheelEvent
    rw [maybeCoalesceWheel_not_next]
    simp [DispatchWheelEvent,
      (maybeDispatchCoalescedWheel_marker
        { s with lastWheelProcessedTimeFromParent := none }).1]
  · intro s2 ev2 g2 b2 nxt h
    exact maybeCoalesceWheel_null_marker s2 ev2 g2 b2 nxt h

/-- C6 witness. -/
theorem claim_C6_witness :
    (RecvMouseWheelEvent
        { lastWheelProcessedTimeFromParent := some 10,
          lastWheelProcessingDuration := 4,
          coalescedWheelData := CoalescedWheelData.emptyData,
          dispatchedWheel := [] }
        { message := WheelMessage.eWheel, timeStamp := 11, deltaX := 1,
          deltaY := 0, compatKey := 0 } 0 0 false 3).lastWheelProcessedTimeFromParent =
      none ∧
    ∀ (s2 : WheelState) (ev2 : WidgetWheelEvent) (g2 b2 : Nat) (nxt : Bool),
      s2.lastWheelProcessedTimeFromParent = none →
      (MaybeCoalesceWheelEvent s2 ev2 g2 b2 nxt).1 = false :=
  claim_C6_lone_wheel_marker_reset
    { lastWheelProcessedTimeFromParent := some 10,
      lastWheelProcessingDuration := 4,
      coalescedWheelData := CoalescedWheelData.emptyData,
      dispatchedWheel := [] }
    { message := WheelMessage.eWheel, timeStamp := 11, deltaX := 1,
      deltaY := 0, compatKey := 0 } 0 0 3

/-- When nothing merged, `MaybeCoalesceWheelEvent` returns the state
unchanged. -/
lemma maybeCoalesceWheel_state_of_not_merged (s : WheelState)
    (ev : WidgetWheelEvent) (g b : Nat) (nxt : Bool)
    (h : (MaybeCoalesceWheelEvent s ev g b nxt).1 = false) :
    (MaybeCoalesceWheelEvent s ev g b nxt).2.2 = s := by
  unfold MaybeCoalesceWheelEvent at h ⊢
  cases hm : ev.message with
  | eWheel =>
    rcases hl : s.lastWheelProcessedTimeFromParent with _ | t
    · simp [hm, hl]
    · simp only [hm, hl, reduceIte] at h ⊢
      split_ifs at h ⊢
      rfl
  | eWheelOperationStart => simp [hm]
  | eWheelOperationEnd => simp [hm]

/-- The `aIsNextWheelEvent` out-parameter equals the channel peek result
for `eWheel` messages and is `false` otherwise. -/
lemma maybeCoalesceWheel_next (s : WheelState) (ev : WidgetWheelEvent)
    (g b : Nat) (nxt : Bool) :
    (MaybeCoalesceWheelEvent s ev g b nxt).2.1 =
      (if ev.message = WheelMessage.eWheel then nxt else false) := by
  unfold MaybeCoalesceWheelEvent
  cases hm : ev.message with
  | eWheel =>
    rcases hl : s.lastWheelProcessedTimeFromParent with _ | t <;>
      simp [hm, hl] <;> split_ifs <;> simp
  | eWheelOperationStart => simp [hm]
  | eWheelOperationEnd => simp [hm]

/-- The wheel-dispatch trace grows by the pending accumulated event, if
any. -/
lemma maybeDispatchCoalescedWheel_trace (s : WheelState) :
    (MaybeDispatchCoalescedWheelEvent s).dispatchedWheel =
      s.dispatchedWheel ++
        (match s.coalescedWheelData.coalescedInputEvent with
         | none => []
         | some old =>
           [(old, s.coalescedWheelData.guid,
             s.coalescedWheelData.inputBlockId)]) := by
  unfold MaybeDispatchCoalescedWheelEvent
  rcases h : s.coalescedWheelData.coalescedInputEvent <;> simp [h]

/-! ## Claim C5: wheel merge eligibility and non-merge dispatch -/

/-- C5 counterexample: the claim also asserts that every non-merging call
records the wall-clock dispatch duration, but when no next wheel event is
queued the source takes the marker-reset branch and leaves
`mLastWheelProcessingDuration` untouched: here a non-merging call with
measured duration 7 leaves the estimate at 42. -/
theorem claim_C5_counterexample :
    (MaybeCoalesceWheelEvent
        { lastWheelProcessedTimeFromParent := none,
          lastWheelProcessingDuration := 42,
          coalescedWheelData := CoalescedWheelData.emptyData,
          dispatchedWheel := [] }
        { message := WheelMessage.eWheel, timeStamp := 0, deltaX := 1,
          deltaY := 0, compatKey := 0 } 0 0 false).1 = false ∧
    (RecvMouseWheelEvent
        { lastWheelProcessedTimeFromParent := none,
          lastWheelProcessingDuration := 42,
          coalescedWheelData := CoalescedWheelData.emptyData,
          dispatchedWheel := [] }
        { message := WheelMessage.eWheel, timeStamp := 0, deltaX := 1,
          deltaY := 0, compatKey := 0 } 0 0 false 7).lastWheelProcessingDuration =
      42 := by
  decide

/-- C5 (amended): a wheel event merges into the pending accumulator iff it
is a plain `eWheel` delta, a next wheel event is queued on the channel,
its timestamp is below the non-null last-processed time plus the last
processing duration, and it is compatible with any accumulated pending
delta; a non-merging call dispatches the pending accumulated event (if
any) first and then the new event, and it records the wall-clock dispatch
duration as the new estimate exactly in the queued-next-wheel case (with
no next wheel event queued the estimate is left unchanged and the marker
is reset instead). -/
theorem claim_C5_wheel_merge_conditions (s : WheelState)
    (ev : WidgetWheelEvent) (g b : Nat) (nxt : Bool) (d : Nat) :
    ((MaybeCoalesceWheelEvent s ev g b nxt).1 = true ↔
      (ev.message = WheelMessage.eWheel ∧ nxt = true ∧
        (∃ t, s.lastWheelProcessedTimeFromParent = some t ∧
          ev.timeStamp < t + s.lastWheelProcessingDuration) ∧
        (s.coalescedWheelData.IsEmpty = true ∨
          s.coalescedWheelData.CanCoalesce ev g b = true))) ∧
    ((MaybeCoalesceWheelEvent s ev g b nxt).1 = false →
      (RecvMouseWheelEvent s ev g b nxt d).dispatchedWheel =
        s.dispatchedWheel ++ pendingWheelThenNew s ev g b) ∧
    ((MaybeCoalesceWheelEvent s ev g b nxt).1 = false →
      (RecvMouseWheelEvent s ev g b nxt d).lastWheelProcessingDuration =
        (if ev.message = WheelMessage.eWheel ∧ nxt = true then d
         else s.lastWheelProcessingDuration)) := by
  refine ⟨?_, ?_, ?_⟩
  · unfold MaybeCoalesceWheelEvent
    cases hm : ev.message with
    | eWheel =>
      rcases hl : s.lastWheelProcessedTimeFromParent with _ | t
      · simp [hm, hl]
      · simp only [hm, hl, reduceIte]
        by_cases hn : nxt = true <;>
          by_cases ht : ev.timeStamp < t + s.lastWheelProcessingDuration <;>
            by_cases he : (s.coalescedWheelData.IsEmpty = true ∨
                s.coalescedWheelData.CanCoalesce ev g b = true) <;>
              simp [hn, ht, he]
    | eWheelOperationStart => simp [hm]
    | eWheelOperationEnd => simp [hm]
  · intro hfalse
    simp only [RecvMouseWheelEvent, hfalse, Bool.false_eq_true, if_false,
      maybeCoalesceWheel_state_of_not_merged s ev g b nxt hfalse,
      maybeCoalesceWheel_next]
    unfold pendingWheelThenNew
    split_ifs <;>
      simp [DispatchWheelEvent, maybeDispatchCoalescedWheel_trace]
  · intro hfalse
    simp only [RecvMouseWheelEvent, hfalse, Bool.false_eq_true, if_false,
      maybeCoalesceWheel_state_of_not_merged s ev g b nxt hfalse,
      maybeCoalesceWheel_next]
    cases hm : ev.message with
    | eWheel =>
      rcases hx : nxt <;>
        simp [hm, hx, DispatchWheelEvent,
          (maybeDispatchCoalescedWheel_marker _).2]
    | eWheelOperationStart =>
      simp [hm, DispatchWheelEvent,
        (maybeDispatchCoalescedWheel_marker _).2]
    | eWheelOperationEnd =>
      simp [hm, DispatchWheelEvent,
        (maybeDispatchCoalescedWheel_marker _).2]

/-- Concrete wheel state used to witness C5: a fresh estimate window
(last processed at 10, duration 4) and an empty accumulator. -/
def wheelWitnessState : WheelState :=
  { lastWheelProcessedTimeFromParent := some 10,
    lastWheelProcessingDuration := 4,
    coalescedWheelData := CoalescedWheelData.emptyData,
    dispatchedWheel := [] }

/-- Concrete wheel event used to witness C5: an `eWheel` delta at
timestamp 11, inside the in-flight window [10, 14). -/
def wheelWitnessEvent : WidgetWheelEvent :=
  { message := WheelMessage.eWheel, timeStamp := 11, deltaX := 1,
    deltaY := 0, compatKey := 0 }

/-- C5 witness. -/
theorem claim_C5_witness :
    ((MaybeCoalesceWheelEvent wheelWitnessState wheelWitnessEvent 0 0 true).1 =
        true ↔
      (wheelWitnessEvent.message = WheelMessage.eWheel ∧ true = true ∧
        (∃ t, wheelWitnessState.lastWheelProcessedTimeFromParent = some t ∧
          wheelWitnessEvent.timeStamp <
            t + wheelWitnessState.lastWheelProcessingDuration) ∧
        (wheelWitnessState.coalescedWheelData.IsEmpty = true ∨
          wheelWitnessState.coalescedWheelData.CanCoalesce
            wheelWitnessEvent 0 0 = true))) ∧
    ((MaybeCoalesceWheelEvent wheelWitnessState wheelWitnessEvent 0 0 true).1 =
        false →
      (RecvMouseWheelEvent wheelWitnessState wheelWitnessEvent 0 0 true
          3).dispatchedWheel =
        wheelWitnessState.dispatchedWheel ++
          pendingWheelThenNew wheelWitnessState wheelWitnessEvent 0 0) ∧
    ((MaybeCoalesceWheelEvent wheelWitnessState wheelWitnessEvent 0 0 true).1 =
        false →
      (RecvMouseWheelEvent wheelWitnessState wheelWitnessEvent 0 0 true
          3).lastWheelProcessingDuration =
        (if wheelWitnessEvent.message = WheelMessage.eWheel ∧ true = true then 3
         else wheelWitnessState.lastWheelProcessingDuration)) :=
  claim_C5_wheel_merge_conditions wheelWitnessState wheelWitnessEvent 0 0 true 3

/-! ## Claim C8: double destroy is a debug assertion failure -/

/-- C8: `RecvDestroy` asserts `mDestroyed == false` on entry, so a first
destroy succeeds and marks the actor destroying, and a second destroy
while already destroying trips the fatal debug assertion instead of being
silently ignored. -/
theorem claim_C8_double_destroy_asserts (s : DestroyState)
    (h : s.mDestroyed = false) :
    RecvDestroy s =
      Except.ok
        { s with mDestroyed := true,
                 destroyWindowRuns := s.destroyWindowRuns + 1,
                 delayedDeleteScheduled := s.delayedDeleteScheduled + 1 } ∧
    ∀ s2 : DestroyState, s2.mDestroyed = true →
      RecvDestroy s2 =
        Except.error "Assertion failure: mDestroyed == false" := by
  constructor
  · simp [RecvDestroy, h]
  · intro s2 h2
    simp [RecvDestroy, h2]

/-- C8 witness. -/
theorem claim_C8_witness :
    RecvDestroy
        { mDestroyed := false, destroyWindowRuns := 0,
          delayedDeleteScheduled := 0 } =
      Except.ok
        { mDestroyed := true, destroyWindowRuns := 0 + 1,
          delayedDeleteScheduled := 0 + 1 } ∧
    ∀ s2 : DestroyState, s2.mDestroyed = true →
      RecvDestroy s2 =
        Except.error "Assertion failure: mDestroyed == false" :=
  claim_C8_double_destroy_asserts
    { mDestroyed := false, destroyWindowRuns := 0,
      delayedDeleteScheduled := 0 } rfl

/-! ## Claim C9: registry lookups never see a removed entry -/

lemma lookupAssoc_removeAssoc_self {α : Type} (m : List (Nat × α)) (k : Nat) :
    lookupAssoc (removeAssoc m k) k = none := by
  induction m with
  | nil => rfl
  | cons p rest ih =>
    obtain ⟨k2, v⟩ := p
    by_cases h : k2 = k <;> simp [removeAssoc, lookupAssoc, h, ih]

lemma lookupAssoc_removeAssoc_ne {α : Type} (m : List (Nat × α)) (k k2 : Nat)
    (h : k2 ≠ k) : lookupAssoc (removeAssoc m k2) k = lookupAssoc m k := by
  induction m with
  | nil => rfl
  | cons p rest ih =>
    obtain ⟨k3, v⟩ := p
    by_cases h3 : k3 = k2
    · subst h3
      simp [removeAssoc, lookupAssoc, h, ih]
    · by_cases hk : k3 = k <;>
        simp [removeAssoc, lookupAssoc, h3, hk, Ne.symm h, ih]

lemma lookupAssoc_putAssoc_ne {α : Type} (m : List (Nat × α)) (k k2 : Nat)
    (v : α) (h : k2 ≠ k) :
    lookupAssoc (putAssoc m k2 v) k = lookupAssoc m k := by
  induction m with
  | nil => simp [putAssoc, lookupAssoc, h]
  | cons p rest ih =>
    obtain ⟨k3, v3⟩ := p
    by_cases h3 : k3 = k2
    · subst h3
      simp [putAssoc, lookupAssoc, h, ih]
    · by_cases hk : k3 = k <;>
        simp [putAssoc, lookupAssoc, h3, hk, Ne.symm h, ih]

/-- Unregistering a surface id makes its lookup fail. -/
lemma getFrom_unregister_self (r : BrowserChildMap) (k : Nat) :
    GetFromLayersId (unregisterLayersId r k) k = none := by
  rcases r with _ | m
  · rfl
  · simp only [unregisterLayersId, GetFromLayersId]
    split_ifs
    · rfl
    · exact lookupAssoc_removeAssoc_self m k

/-- Any registry operation that is not a registration of key `k`
preserves the absence of `k`. -/
lemma getFrom_none_preserved (r : BrowserChildMap) (k : Nat)
    (op : RegistryOp) (hop : ∀ a, op ≠ RegistryOp.register k a)
    (h : GetFromLayersId r k = none) :
    GetFromLayersId (applyRegistryOp r op) k = none := by
  rcases op with ⟨i, a⟩ | i
  · have hik : i ≠ k := by
      intro he
      exact hop a (by rw [he])
    rcases r with _ | m
    · simp [applyRegistryOp, registerLayersId, GetFromLayersId, lookupAssoc, hik]
    · simp only [applyRegistryOp, registerLayersId, GetFromLayersId] at h ⊢
      rw [lookupAssoc_putAssoc_ne m k i a hik]
      exact h
  · by_cases hik : i = k
    · subst hik
      exact getFrom_unregister_self r i
    · rcases r with _ | m
      · rfl
      · simp only [applyRegistryOp, unregisterLayersId, GetFromLayersId] at h ⊢
        split_ifs
        · rfl
        · show lookupAssoc (removeAssoc m i) k = none
          rw [lookupAssoc_removeAssoc_ne m k i hik]
          exact h

/-- C9: in the linearized history enforced by `sBrowserChildrenMutex`
(registration, removal and lookup all run under the one static mutex), a
lookup of surface id `k` that comes after `DestroyWindow` removed `k`,
with no re-registration of `k` in between, returns not-found — it can
never return the destroyed actor, whatever operations on other ids are
interleaved before or after the removal. -/
lemma getFrom_none_preserved_ops (k : Nat) (post : List RegistryOp)
    (hpost : ∀ a, RegistryOp.register k a ∉ post) :
    ∀ r : BrowserChildMap, GetFromLayersId r k = none →
      GetFromLayersId (applyRegistryOps r post) k = none := by
  induction post with
  | nil =>
    intro r h
    exact h
  | cons op rest ih =>
    intro r h
    have hop : ∀ a, op ≠ RegistryOp.register k a := by
      intro a he
      exact hpost a (by rw [← he]; exact List.mem_cons_self op rest)
    have hrest : ∀ a, RegistryOp.register k a ∉ rest := by
      intro a hm
      exact hpost a (List.mem_cons_of_mem op hm)
    simpa [applyRegistryOps] using
      ih hrest (applyRegistryOp r op) (getFrom_none_preserved r k op hop h)

theorem claim_C9_registry_lookup_after_unregister (pre post : List RegistryOp)
    (r : BrowserChildMap) (k : Nat)
    (hpost : ∀ a, RegistryOp.register k a ∉ post) :
    GetFromLayersId
        (applyRegistryOps (unregisterLayersId (applyRegistryOps r pre) k) post)
        k = none :=
  getFrom_none_preserved_ops k post hpost
    (unregisterLayersId (applyRegistryOps r pre) k)
    (getFrom_unregister_self (applyRegistryOps r pre) k)

/-- C9 witness. -/
theorem claim_C9_witness :
    GetFromLayersId
        (applyRegistryOps
          (unregisterLayersId
            (applyRegistryOps none [RegistryOp.register 5 1, RegistryOp.register 6 2]) 5)
          [RegistryOp.unregister 6, RegistryOp.register 7 3]) 5 = none :=
  claim_C9_registry_lookup_after_unregister
    [RegistryOp.register 5 1, RegistryOp.register 6 2]
    [RegistryOp.unregister 6, RegistryOp.register 7 3] none 5
    (by intro a; simp)

/-! ## Claim C7: two-phase delayed delete -/

def isInboundTask : TeardownTask → Bool
  | TeardownTask.delayedDeleteRunnable => false
  | TeardownTask.inboundMessage _ => true

lemma runTeardownQueue_nil (s : TeardownState) : runTeardownQueue s [] = s := by
  rw [runTeardownQueue]

lemma runTeardownQueue_cons (s : TeardownState) (t : TeardownTask)
    (rest : List TeardownTask) :
    runTeardownQueue s (t :: rest) =
      runTeardownQueue (runTeardownTask s t).1
        (rest ++ (runTeardownTask s t).2) := by
  rw [runTeardownQueue]

/-- A run of inbound-only tasks only bumps the inbound counter. -/
lemma runTeardownQueue_inbound_segment (l : List TeardownTask)
    (h : ∀ t ∈ l, isInboundTask t = true) :
    ∀ (s : TeardownState) (q : List TeardownTask),
      runTeardownQueue s (l ++ q) =
        runTeardownQueue
          { s with inboundHandled := s.inboundHandled + l.length } q := by
  induction l with
  | nil =>
    intro s q
    simp
  | cons t rest ih =>
    intro s q
    rcases t with _ | n
    · exact absurd (h TeardownTask.delayedDeleteRunnable
        (List.mem_cons_self _ _)) (by simp [isInboundTask])
    · have hrest : ∀ t2 ∈ rest, isInboundTask t2 = true := by
        intro t2 hm
        exact h t2 (List.mem_cons_of_mem _ hm)
      rw [List.cons_append, runTeardownQueue_cons]
      simp only [runTeardownTask, List.append_nil]
      rw [ih hrest]
      have harith : s.inboundHandled + 1 + rest.length =
          s.inboundHandled + (rest.length + 1) := by omega
      simp [harith]

/-- C7: after `RecvDestroy`, the delayed-delete runnable first runs at
normal priority, only re-submits itself once (then reporting input
priority), and only its second run sends the channel close; for any
inbound messages interleaved before the second bounce completes, the
drained queue yields exactly one channel-close when the channel is open,
and zero closes (a silent skip, not an error) when the channel is already
closed, with teardown state otherwise identical. -/
theorem claim_C7_two_phase_teardown (l1 l2 : List TeardownTask)
    (isOpen : Bool)
    (h1 : ∀ t ∈ l1, isInboundTask t = true)
    (h2 : ∀ t ∈ l2, isInboundTask t = true) :
    DelayedDeleteRunnable.GetPriority
        ⟨false, isOpen, false, 0, 0⟩ = RunnablePriority.normal ∧
    runTeardownTask ⟨false, isOpen, false, 0, 0⟩
        TeardownTask.delayedDeleteRunnable =
      (⟨true, isOpen, false, 0, 0⟩, [TeardownTask.delayedDeleteRunnable]) ∧
    DelayedDeleteRunnable.GetPriority
        ⟨true, isOpen, false, 0, 0⟩ = RunnablePriority.input ∧
    runTeardownQueue ⟨false, isOpen, false, 0, 0⟩
        (l1 ++ TeardownTask.delayedDeleteRunnable :: l2) =
      ⟨true, isOpen, false, if isOpen then 1 else 0,
        l1.length + l2.length⟩ := by
  refine ⟨by simp [DelayedDeleteRunnable.GetPriority],
    by simp [runTeardownTask],
    by simp [DelayedDeleteRunnable.GetPriority], ?_⟩
  rw [runTeardownQueue_inbound_segment l1 h1, runTeardownQueue_cons]
  simp only [runTeardownTask, eq_self_iff_true, if_true]
  rw [runTeardownQueue_inbound_segment l2 h2, runTeardownQueue_cons]
  rcases isOpen with _ | _ <;>
    simp [runTeardownTask, runTeardownQueue_nil]

/-- C7 witness. -/
theorem claim_C7_witness :
    DelayedDeleteRunnable.GetPriority
        ⟨false, true, false, 0, 0⟩ = RunnablePriority.normal ∧
    runTeardownTask ⟨false, true, false, 0, 0⟩
        TeardownTask.delayedDeleteRunnable =
      (⟨true, true, false, 0, 0⟩, [TeardownTask.delayedDeleteRunnable]) ∧
    DelayedDeleteRunnable.GetPriority
        ⟨true, true, false, 0, 0⟩ = RunnablePriority.input ∧
    runTeardownQueue ⟨false, true, false, 0, 0⟩
        ([TeardownTask.inboundMessage 4] ++
          TeardownTask.delayedDeleteRunnable ::
            [TeardownTask.inboundMessage 8, TeardownTask.inboundMessage 9]) =
      ⟨true, true, false, if true then 1 else 0,
        [TeardownTask.inboundMessage 4].length +
          [TeardownTask.inboundMessage 8, TeardownTask.inboundMessage 9].length⟩ :=
  claim_C7_two_phase_teardown [TeardownTask.inboundMessage 4]
    [TeardownTask.inboundMessage 8, TeardownTask.inboundMessage 9] true
    (by decide) (by decide)

/-! ## Claim C1: pointer-move coalescing -/

lemma drainQueue_append (a b : List CoalescedMouseData) :
    drainQueue (a ++ b) = drainQueue a ++ drainQueue b := by
  induction a with
  | nil => simp [drainQueue]
  | cons d rest ih => simp [drainQueue, ih]

/-- A compatible move event merges into the single-pointer table in
place, replacing the stored event and metadata. -/
lemma recvMove_single_table (p : Nat) (old ev : WidgetMouseEvent)
    (g0 b0 g b : Nat) (tr : List DispatchedMouseEvent)
    (hmsg : old.message = ev.message) (hp : old.pointerId = p)
    (hp2 : ev.pointerId = p) (hmod : old.modifiers = ev.modifiers) :
    RecvRealMouseMoveEvent ⟨true, [(p, ⟨some old, g0, b0⟩)], [], tr⟩ ev g b =
      ⟨true, [(p, ⟨some ev, g, b⟩)], [], tr⟩ := by
  simp [RecvRealMouseMoveEvent, lookupAssoc, putAssoc,
    CoalescedMouseData.CanCoalesce, CoalescedMouseData.Coalesce,
    hmsg, hp, hp2, hmod]

/-- A chain of compatible same-pointer moves keeps merging into the one
table record, which ends up holding the last input's event, guid and
input-block id; nothing is queued or dispatched along the way. -/
lemma runMoves_coalesce_chain (l : List MouseInput) :
    ∀ (p m : Nat) (old : WidgetMouseEvent) (g0 b0 : Nat)
      (tr : List DispatchedMouseEvent),
      old.message = MouseMessage.eMouseMove → old.pointerId = p →
      old.modifiers = m →
      (∀ i ∈ l, i.1.message = MouseMessage.eMouseMove ∧
        i.1.pointerId = p ∧ i.1.modifiers = m) →
      runMoves l ⟨true, [(p, ⟨some old, g0, b0⟩)], [], tr⟩ =
        ⟨true,
          [(p, ⟨some (lastInput (old, g0, b0) l).1,
            (lastInput (old, g0, b0) l).2.1,
            (lastInput (old, g0, b0) l).2.2⟩)], [], tr⟩ := by
  induction l with
  | nil =>
    intro p m old g0 b0 tr hmsg hp hmod hall
    simp [runMoves, lastInput]
  | cons i rest ih =>
    intro p m old g0 b0 tr hmsg hp hmod hall
    obtain ⟨ev, g, b⟩ := i
    obtain ⟨hm1, hm2, hm3⟩ := hall (ev, g, b) (List.mem_cons_self _ _)
    have hrest : ∀ i2 ∈ rest, i2.1.message = MouseMessage.eMouseMove ∧
        i2.1.pointerId = p ∧ i2.1.modifiers = m := by
      intro i2 hmem
      exact hall i2 (List.mem_cons_of_mem _ hmem)
    have hstep := recvMove_single_table p old ev g0 b0 g b tr
      (by rw [hmsg, hm1]) hp hm2 (by rw [hmod, hm3])
    simp only [runMoves, List.foldl_cons] at *
    rw [hstep, ih p m ev g b tr hm1 hm2 hm3 hrest]
    simp [lastInput]

/-- C1: a nonempty sequence of compatible move events for one pointer
identity, received with coalescing enabled and no intervening non-move
event, dispatches nothing while it is being merged, and the flush then
dispatches exactly one event carrying the last event (hence its position)
and the last event's input-block id. -/
theorem claim_C1_pointer_move_coalescing (first : MouseInput)
    (rest : List MouseInput) (p m : Nat)
    (h : ∀ i ∈ first :: rest, i.1.message = MouseMessage.eMouseMove ∧
      i.1.pointerId = p ∧ i.1.modifiers = m) :
    (runMoves (first :: rest) initMouseState).dispatched = [] ∧
    (CoalescedMouseMoveFlusherWillRefresh
        (runMoves (first :: rest) initMouseState)).dispatched =
      [⟨(lastInput first rest).1, (lastInput first rest).2.1,
        (lastInput first rest).2.2⟩] := by
  obtain ⟨ev0, g0, b0⟩ := first
  obtain ⟨hm1, hm2, hm3⟩ := h (ev0, g0, b0) (List.mem_cons_self _ _)
  simp only [] at hm1 hm2 hm3
  have hrest : ∀ i ∈ rest, i.1.message = MouseMessage.eMouseMove ∧
      i.1.pointerId = p ∧ i.1.modifiers = m := by
    intro i hmem
    exact h i (List.mem_cons_of_mem _ hmem)
  have hfirst : RecvRealMouseMoveEvent initMouseState ev0 g0 b0 =
      ⟨true, [(p, ⟨some ev0, g0, b0⟩)], [], []⟩ := by
    simp [RecvRealMouseMoveEvent, initMouseState, lookupAssoc, putAssoc,
      CoalescedMouseData.CanCoalesce, CoalescedMouseData.emptyData,
      CoalescedMouseData.Coalesce, hm2]
  have hchain := runMoves_coalesce_chain rest p m ev0 g0 b0 []
    hm1 hm2 hm3 hrest
  have hrun : runMoves ((ev0, g0, b0) :: rest) initMouseState =
      ⟨true,
        [(p, ⟨some (lastInput (ev0, g0, b0) rest).1,
          (lastInput (ev0, g0, b0) rest).2.1,
          (lastInput (ev0, g0, b0) rest).2.2⟩)], [], []⟩ := by
    simp only [runMoves, List.foldl_cons] at *
    rw [hfirst, hchain]
  rw [hrun]
  constructor
  · rfl
  · simp [CoalescedMouseMoveFlusherWillRefresh, FlushAllCoalescedMouseData,
      ProcessPendingCoalescedMouseDataAndDispatchEvents,
      CoalescedMouseData.IsEmpty, drainQueue]

/-- C1 witness. -/
theorem claim_C1_witness :
    (∀ i ∈ [((⟨MouseMessage.eMouseMove, 5, (1, 2), 0, 100⟩ :
          WidgetMouseEvent), 11, 101),
        ((⟨MouseMessage.eMouseMove, 5, (3, 4), 0, 110⟩ :
          WidgetMouseEvent), 22, 202)],
      i.1.message = MouseMessage.eMouseMove ∧ i.1.pointerId = 5 ∧
        i.1.modifiers = 0) ∧
    ((runMoves [((⟨MouseMessage.eMouseMove, 5, (1, 2), 0, 100⟩ :
          WidgetMouseEvent), 11, 101),
        ((⟨MouseMessage.eMouseMove, 5, (3, 4), 0, 110⟩ :
          WidgetMouseEvent), 22, 202)] initMouseState).dispatched = [] ∧
      (CoalescedMouseMoveFlusherWillRefresh
          (runMoves [((⟨MouseMessage.eMouseMove, 5, (1, 2), 0, 100⟩ :
              WidgetMouseEvent), 11, 101),
            ((⟨MouseMessage.eMouseMove, 5, (3, 4), 0, 110⟩ :
              WidgetMouseEvent), 22, 202)] initMouseState)).dispatched =
        [⟨(lastInput ((⟨MouseMessage.eMouseMove, 5, (1, 2), 0, 100⟩ :
              WidgetMouseEvent), 11, 101)
            [((⟨MouseMessage.eMouseMove, 5, (3, 4), 0, 110⟩ :
              WidgetMouseEvent), 22, 202)]).1,
          (lastInput ((⟨MouseMessage.eMouseMove, 5, (1, 2), 0, 100⟩ :
              WidgetMouseEvent), 11, 101)
            [((⟨MouseMessage.eMouseMove, 5, (3, 4), 0, 110⟩ :
              WidgetMouseEvent), 22, 202)]).2.1,
          (lastInput ((⟨MouseMessage.eMouseMove, 5, (1, 2), 0, 100⟩ :
              WidgetMouseEvent), 11, 101)
            [((⟨MouseMessage.eMouseMove, 5, (3, 4), 0, 110⟩ :
              WidgetMouseEvent), 22, 202)]).2.2⟩]) :=
  ⟨by decide,
    claim_C1_pointer_move_coalescing
      ((⟨MouseMessage.eMouseMove, 5, (1, 2), 0, 100⟩ :
        WidgetMouseEvent), 11, 101)
      [((⟨MouseMessage.eMouseMove, 5, (3, 4), 0, 110⟩ :
        WidgetMouseEvent), 22, 202)] 5 0 (by decide)⟩

/-! ## Claim C2: ordering of flushed moves around a button event -/

/-- Concrete move on pointer 2 arriving first in the C2 scenario. -/
def cexMoveP2 : WidgetMouseEvent :=
  ⟨MouseMessage.eMouseMove, 2, (20, 0), 0, 100⟩

/-- Concrete move on pointer 1 arriving second in the C2 scenario. -/
def cexMoveP1 : WidgetMouseEvent :=
  ⟨MouseMessage.eMouseMove, 1, (10, 0), 0, 110⟩

/-- Concrete button event on pointer 1 in the C2 scenario. -/
def cexButton : WidgetMouseEvent :=
  ⟨MouseMessage.other 6, 1, (10, 0), 0, 120⟩

/-- C2 counterexample: with P2 moving before P1 and a button on P1, the
per-pointer records are flushed in record-creation order, so the dispatch
order is [P2 move, P1 move, button], not the claimed
[P1 move, P2 move, button]. -/
theorem claim_C2_counterexample :
    (RecvRealMouseButtonEvent
        (runMoves [(cexMoveP2, 22, 202), (cexMoveP1, 11, 101)]
          initMouseState) cexButton 33 303).dispatched =
      [⟨cexMoveP2, 22, 202⟩, ⟨cexMoveP1, 11, 101⟩, ⟨cexButton, 33, 303⟩] ∧
    (RecvRealMouseButtonEvent
        (runMoves [(cexMoveP2, 22, 202), (cexMoveP1, 11, 101)]
          initMouseState) cexButton 33 303).dispatched ≠
      [⟨cexMoveP1, 11, 101⟩, ⟨cexMoveP2, 22, 202⟩, ⟨cexButton, 33, 303⟩] := by
  decide

/-- C2 (amended): a non-move event with coalescing enabled first flushes
every buffered per-pointer merged record into the dispatch queue and only
then appends the button event, so the dispatch order is: the already
queued records, then the pending per-pointer merged records in the order
in which the per-pointer records were created (table iteration order,
which need not put P1 before P2), then the button event last — the
button is never dispatched before a pending move of any pointer, and no
buffered data remains afterwards. -/
theorem claim_C2_button_flush_order (s : MouseCoalesceState)
    (ev : WidgetMouseEvent) (g b : Nat)
    (hflag : s.coalesceMouseMoveEvents = true)
    (hmsg : ev.message ≠ MouseMessage.eMouseMove) :
    (RecvRealMouseButtonEvent s ev g b).dispatched =
      s.dispatched ++ drainQueue s.toBeDispatchedMouseData ++
        drainQueue (s.coalescedMouseData.filterMap
          (fun x => if x.2.IsEmpty then none else some x.2)) ++
        [⟨ev, g, b⟩] ∧
    (RecvRealMouseButtonEvent s ev g b).coalescedMouseData = [] ∧
    (RecvRealMouseButtonEvent s ev g b).toBeDispatchedMouseData = [] := by
  refine ⟨?_, ?_, ?_⟩ <;>
    simp [RecvRealMouseButtonEvent, hflag, hmsg,
      FlushAllCoalescedMouseData,
      ProcessPendingCoalescedMouseDataAndDispatchEvents,
      drainQueue_append, drainQueue, CoalescedMouseData.Coalesce,
      CoalescedMouseData.emptyData, List.append_assoc]

/-- C2 witness. -/
theorem claim_C2_witness :
    ((runMoves [(cexMoveP2, 22, 202), (cexMoveP1, 11, 101)]
        initMouseState).coalesceMouseMoveEvents = true ∧
      cexButton.message ≠ MouseMessage.eMouseMove) ∧
    ((RecvRealMouseButtonEvent
        (runMoves [(cexMoveP2, 22, 202), (cexMoveP1, 11, 101)]
          initMouseState) cexButton 33 303).dispatched =
      (runMoves [(cexMoveP2, 22, 202), (cexMoveP1, 11, 101)]
        initMouseState).dispatched ++
        drainQueue (runMoves [(cexMoveP2, 22, 202), (cexMoveP1, 11, 101)]
          initMouseState).toBeDispatchedMouseData ++
        drainQueue ((runMoves [(cexMoveP2, 22, 202), (cexMoveP1, 11, 101)]
          initMouseState).coalescedMouseData.filterMap
            (fun x => if x.2.IsEmpty then none else some x.2)) ++
        [⟨cexButton, 33, 303⟩] ∧
      (RecvRealMouseButtonEvent
        (runMoves [(cexMoveP2, 22, 202), (cexMoveP1, 11, 101)]
          initMouseState) cexButton 33 303).coalescedMouseData = [] ∧
      (RecvRealMouseButtonEvent
        (runMoves [(cexMoveP2, 22, 202), (cexMoveP1, 11, 101)]
          initMouseState) cexButton 33 303).toBeDispatchedMouseData = []) :=
  ⟨⟨by decide, by decide⟩,
    claim_C2_button_flush_order
      (runMoves [(cexMoveP2, 22, 202), (cexMoveP1, 11, 101)] initMouseState)
      cexButton 33 303 (by decide) (by decide)⟩

end Mypal68
